import Mathlib

/-!
Shallow embedding of the sensor-driver suite (ASCII-serial DGS2 driver,
ADC-analog MCP3208 driver, resistive-gas MICS6814 driver, particulate/VOC
SEN66 driver).

Modelling conventions:
* Python floats are embedded as exact rationals (`ℚ`); the decimal literals
  appearing in the code (`3.282`, `0.1`, `1e9`, …) denote the corresponding
  exact rational values.
* Effectful bus interactions are made explicit: each driver's
  `read_measurement` takes, besides the driver state, an environment value
  describing what the transport produced — either a value, or an exception
  raised inside the `try` body (`ReadEvent.raised`).
* The base-class attribute `last_valid_reading` (initialised to `None` by the
  base class, which is not part of the embedded sources) is carried in each
  driver's state record as an `Option`.
* Logging calls are pure no-ops and are dropped; the LED side effect of the
  MICS6814 driver is likewise dropped (no claim mentions it).
-/

namespace SensorModel

/-- Outcome of the effectful body of a driver's `read_measurement`:
either the value the transport produced, or an exception raised inside the
`try` block (caught by the driver's `except` clause). -/
inductive ReadEvent (α : Type) where
  | ok (v : α)
  | raised
deriving DecidableEq

/-! ### Models of the Python string primitives used by `DGS2Sensor`

`str.split(',')`, `str.strip()`, `int(...)` and `float(...)` are modelled on
`List Char`.  `int`/`float` cover the plain decimal literals the device
protocol produces (optional sign, decimal digits, for `float` an optional
single decimal point); any other content makes them fail, exactly as the
Python calls raise `ValueError` on non-numeric fields. -/

/-- Python `s.split(sep)` for a one-character separator: `pySplitOn ',' []`
is `[[]]`, separators at the ends produce empty fields. -/
def pySplitOn (sep : Char) : List Char → List (List Char)
  | [] => [[]]
  | c :: rest =>
    if c = sep then [] :: pySplitOn sep rest
    else
      match pySplitOn sep rest with
      | f :: fs => (c :: f) :: fs
      | [] => [[c]]

/-- Python `s.strip()`: remove leading and trailing whitespace. -/
def pyStrip (l : List Char) : List Char :=
  ((l.dropWhile Char.isWhitespace).reverse.dropWhile Char.isWhitespace).reverse

/-- Accumulate a decimal digit run; fails on the first non-digit. -/
def digitsAux : List Char → ℕ → Option ℕ
  | [], acc => some acc
  | c :: cs, acc =>
    if c.isDigit then digitsAux cs (10 * acc + (c.toNat - 48)) else none

/-- Value of a non-empty decimal digit run. -/
def digitsVal? : List Char → Option ℕ
  | [] => none
  | l => digitsAux l 0

/-- Python `int(s)` on a stripped field: optional sign, then a non-empty
run of decimal digits. -/
def pyInt? (l : List Char) : Option ℤ :=
  match pyStrip l with
  | '+' :: ds => (digitsVal? ds).map Int.ofNat
  | '-' :: ds => (digitsVal? ds).map (fun n => -(n : ℤ))
  | ds => (digitsVal? ds).map Int.ofNat

/-- Magnitude of a Python decimal `float` literal: digits with an optional
single decimal point, at least one digit overall. -/
def pyFloatMag? (l : List Char) : Option ℚ :=
  match pySplitOn '.' l with
  | [ip] => (digitsVal? ip).map (fun n => (n : ℚ))
  | [ip, fp] =>
    if ip.isEmpty && fp.isEmpty then none
    else
      match digitsAux ip 0, digitsAux fp 0 with
      | some n, some f => some ((n : ℚ) + (f : ℚ) / (10 : ℚ) ^ fp.length)
      | _, _ => none
  | _ => none

/-- Python `float(s)` on a stripped field: optional sign, then a decimal
magnitude. -/
def pyFloat? (l : List Char) : Option ℚ :=
  match pyStrip l with
  | '+' :: r => pyFloatMag? r
  | '-' :: r => (pyFloatMag? r).map Neg.neg
  | r => pyFloatMag? r

/-- `startsWith sub l` : `sub` is an initial segment of `l`. -/
def startsWith : List Char → List Char → Bool
  | [], _ => true
  | _ :: _, [] => false
  | a :: as, b :: bs => a = b && startsWith as bs

/-- Python `sub in s` for character lists: `sub` occurs contiguously in `l`. -/
def containsSeq (sub : List Char) : List Char → Bool
  | [] => startsWith sub []
  | l@(_ :: rest) => startsWith sub l || containsSeq sub rest

/-! ### ASCII-serial driver (`src/dgs2_sensor.py`, class `DGS2Sensor`) -/

/-- The dictionary built by `DGS2Sensor.parse_measurement` (lines 131–140).
`gas_ppb`, `adc_g`, `adc_t`, `adc_h` hold Python `int` values (integral
rationals); the remaining numeric fields hold `float` values. -/
structure DGS2Record where
  sensor : String
  gas_ppb : ℚ
  temperature : ℚ
  relative_humidity : ℚ
  adc_g : ℚ
  adc_t : ℚ
  adc_h : ℚ
  gas_ppm : ℚ
deriving DecidableEq

namespace DGS2Sensor

/-- `DGS2Sensor.parse_measurement` (lines 118–146): split the line on commas;
with at least 7 fields, build the record from the fixed positions; a failing
`int`/`float` conversion is caught by the surrounding `try` and yields
`None`, as does a short line. -/
def parse_measurement (sensor_name : String) (measurement_string : String) :
    Option DGS2Record :=
  let parts := pySplitOn ',' measurement_string.toList
  if parts.length ≥ 7 then
    match pyInt? (parts.getD 1 []), pyFloat? (parts.getD 2 []),
        pyFloat? (parts.getD 3 []), pyInt? (parts.getD 4 []),
        pyInt? (parts.getD 5 []), pyInt? (parts.getD 6 []) with
    | some ppb, some t, some h, some ag, some atv, some ah =>
      some { sensor := sensor_name
             gas_ppb := (ppb : ℚ)
             temperature := t / 100
             relative_humidity := h / 100
             adc_g := (ag : ℚ)
             adc_t := (atv : ℚ)
             adc_h := (ah : ℚ)
             gas_ppm := (ppb : ℚ) / 1000 }
    | _, _, _, _, _, _ => none
  else none

/-- `DGS2Sensor.is_valid_reading` (lines 91–116): `None` is invalid; negative
gas levels, temperature outside [-40, 85] or humidity outside [0, 100] are
rejected. -/
def is_valid_reading (data : Option DGS2Record) : Bool :=
  match data with
  | none => false
  | some d =>
    if d.gas_ppb < 0 ∨ d.gas_ppm < 0 then false
    else if d.temperature < -40 ∨ 85 < d.temperature then false
    else if d.relative_humidity < 0 ∨ 100 < d.relative_humidity then false
    else true

/-- One step of the sanitisation loop in `read_measurement` (lines 165–173)
for a numeric dictionary entry: entries whose key contains `"temp"`
(lower-cased) are skipped; a negative value is replaced by zero. -/
def sanitizeNum (key : String) (v : ℚ) : ℚ :=
  if containsSeq "temp".toList (key.toList.map Char.toLower) then v
  else if v < 0 then 0 else v

/-- The whole sanitisation loop of `read_measurement` applied to the parsed
dictionary: the `'sensor'` entry is a string and is skipped by the
`isinstance` test; every numeric entry goes through `sanitizeNum` with its
dictionary key. -/
def sanitize (r : DGS2Record) : DGS2Record :=
  { sensor := r.sensor
    gas_ppb := sanitizeNum "gas_ppb" r.gas_ppb
    temperature := sanitizeNum "temperature" r.temperature
    relative_humidity := sanitizeNum "relative_humidity" r.relative_humidity
    adc_g := sanitizeNum "adc_g" r.adc_g
    adc_t := sanitizeNum "adc_t" r.adc_t
    adc_h := sanitizeNum "adc_h" r.adc_h
    gas_ppm := sanitizeNum "gas_ppm" r.gas_ppm }

end DGS2Sensor

/-- Mutable state of a `DGS2Sensor` instance (transport handle omitted). -/
structure DGS2State where
  sensor_name : String
  initialized : Bool
  last_valid_reading : Option DGS2Record
deriving DecidableEq

/-- Environment of one `DGS2Sensor.read_measurement` call: what
`initialize()` would return if invoked, and the outcome of the `try` body —
the response line obtained from `send_command`, or an exception. -/
structure DGS2Env where
  initOk : Bool
  event : ReadEvent String

namespace DGS2Sensor

/-- The `try`/`except` body of `read_measurement` (lines 159–181): parse the
response; if a record results, sanitise it, store it in
`last_valid_reading` and return it; a parse failure returns `None`; an
exception is caught and the cached record returned with the state
unchanged. -/
def readBody (st : DGS2State) (ev : ReadEvent String) :
    DGS2State × Option DGS2Record :=
  match ev with
  | .raised => (st, st.last_valid_reading)
  | .ok response =>
    match parse_measurement st.sensor_name response with
    | none => (st, none)
    | some d =>
      let d2 := sanitize d
      ({ st with last_valid_reading := some d2 }, some d2)

/-- `DGS2Sensor.read_measurement` (lines 147–181): when not initialised,
attempt one `initialize()`; if that fails return the cached record,
otherwise run the body. -/
def read_measurement (st : DGS2State) (env : DGS2Env) :
    DGS2State × Option DGS2Record :=
  if st.initialized then readBody st env.event
  else if env.initOk then readBody { st with initialized := true } env.event
  else (st, st.last_valid_reading)

end DGS2Sensor

/-! ### ADC-analog driver (`src/mcp3208_sensor.py`, class `MCP3208Sensor`) -/

/-- The dictionary built by `MCP3208Sensor.read_measurement` (lines 194–201). -/
structure MCPRecord where
  sensor : String
  raw_adc : ℚ
  voltage : ℚ
  current_nA : ℚ
  concentration : ℚ
  concentration_ppb : ℚ
deriving DecidableEq

/-- Mutable state of an `MCP3208Sensor` instance (SPI handle and bus
parameters omitted; they never influence the computed values). -/
structure MCP3208State where
  sensor_name : String
  channel : ℤ
  vref : ℚ
  r_feedback : ℚ
  sensitivity : ℚ
  initialized : Bool
  last_valid_reading : Option MCPRecord
deriving DecidableEq

namespace MCP3208Sensor

/-- `MCP3208Sensor.__init__` (lines 16–51): raises `ValueError` exactly when
the channel is outside 0–7; every other parameter, the sensitivity
included, is stored unchecked.  The base class initialises
`last_valid_reading` to `None`. -/
def init (channel : ℤ) (vref r_feedback sensitivity : ℚ)
    (sensor_name : String) : Except String MCP3208State :=
  if channel < 0 ∨ 7 < channel then
    .error "Invalid channel. Must be 0-7."
  else
    .ok { sensor_name := sensor_name
          channel := channel
          vref := vref
          r_feedback := r_feedback
          sensitivity := sensitivity
          initialized := false
          last_valid_reading := none }

/-- `Except` success test for the constructor model. -/
def initOk (e : Except String MCP3208State) : Bool :=
  match e with
  | .ok _ => true
  | .error _ => false

/-- `MCP3208Sensor.adc_to_voltage` (lines 130–140):
`(adc_value / 4095.0) * self.vref`. -/
def adc_to_voltage (st : MCP3208State) (adc_value : ℚ) : ℚ :=
  (adc_value / 4095) * st.vref

/-- `MCP3208Sensor.calculate_iout` (lines 142–152):
`((self.vref - vout) / self.r_feedback) * 1e9`. -/
def calculate_iout (st : MCP3208State) (vout : ℚ) : ℚ :=
  ((st.vref - vout) / st.r_feedback) * 1000000000

/-- `MCP3208Sensor.calculate_concentration` (lines 154–169): guard against
zero/negative sensitivity by returning `0.0`, otherwise divide. -/
def calculate_concentration (st : MCP3208State) (iout : ℚ) : ℚ :=
  if st.sensitivity ≤ 0 then 0 else iout / st.sensitivity

/-- `MCP3208Sensor.is_valid_reading` (lines 83–107): `None` is invalid;
negative concentration is rejected; for the `"HCHO"` and `"NH3"`
specialisations a concentration above 100 is rejected. -/
def is_valid_reading (st : MCP3208State) (data : Option MCPRecord) : Bool :=
  match data with
  | none => false
  | some d =>
    if d.concentration < 0 then false
    else if st.sensor_name = "HCHO" ∧ 100 < d.concentration then false
    else if st.sensor_name = "NH3" ∧ 100 < d.concentration then false
    else true

/-- The record the `try` body of `read_measurement` (lines 184–201) builds
from a raw ADC count: conversion chain, negative concentration clamped to
zero, `concentration_ppb = concentration * 1000`. -/
def freshRecord (st : MCP3208State) (raw_adc : ℕ) : MCPRecord :=
  let voltage := adc_to_voltage st (raw_adc : ℚ)
  let iout := calculate_iout st voltage
  let conc0 := calculate_concentration st iout
  let concentration := if conc0 < 0 then 0 else conc0
  { sensor := st.sensor_name
    raw_adc := (raw_adc : ℚ)
    voltage := voltage
    current_nA := iout
    concentration := concentration
    concentration_ppb := concentration * 1000 }

/-- The `try`/`except` body of `read_measurement` (lines 183–208): on
success the fresh record is stored in `last_valid_reading` unconditionally
and returned; an exception is caught and the cached record returned with
the state otherwise unchanged. -/
def readBody (st : MCP3208State) (ev : ReadEvent ℕ) :
    MCP3208State × Option MCPRecord :=
  match ev with
  | .raised => (st, st.last_valid_reading)
  | .ok raw_adc =>
    let data := freshRecord st raw_adc
    ({ st with last_valid_reading := some data }, some data)

end MCP3208Sensor

/-- Environment of one `MCP3208Sensor.read_measurement` call: what
`initialize()` would return if invoked, and the outcome of the `try` body —
the raw ADC count from `read_channel`, or an exception. -/
structure MCPEnv where
  initOk : Bool
  event : ReadEvent ℕ

namespace MCP3208Sensor

/-- `MCP3208Sensor.read_measurement` (lines 171–208): when not initialised,
attempt one `initialize()`; if that fails return the cached record,
otherwise run the body. -/
def read_measurement (st : MCP3208State) (env : MCPEnv) :
    MCP3208State × Option MCPRecord :=
  if st.initialized then readBody st env.event
  else if env.initOk then readBody { st with initialized := true } env.event
  else (st, st.last_valid_reading)

end MCP3208Sensor

/-! ### Resistive-gas driver (`src/mics6814_sensor.py`, class `MICS6814Sensor`) -/

/-- A reading returned by the vendor library's `read_all()`: per the
validity checks in `is_valid_reading`, each channel value may be `None`. -/
structure MICSReading where
  oxidising : Option ℚ
  reducing : Option ℚ
  nh3 : Option ℚ
deriving DecidableEq

/-- The dictionary built by `MICS6814Sensor.read_measurement`
(lines 229–242), with the nested `raw` and `ppm` dictionaries flattened. -/
structure MICSRecord where
  sensor : String
  timestamp : String
  raw_oxidising : ℚ
  raw_reducing : ℚ
  raw_nh3 : ℚ
  ppm_no2 : ℚ
  ppm_co : ℚ
  ppm_nh3 : ℚ
deriving DecidableEq

/-- Mutable state of a `MICS6814Sensor` instance.  `available` models the
module-level `MICS6814_AVAILABLE` flag; `baseline` is the dictionary of
per-channel baseline values, `None` until calibration. -/
structure MICSState where
  sensor_name : String
  available : Bool
  initialized : Bool
  baseline : MICSReading
  last_valid_reading : Option MICSRecord
deriving DecidableEq

/-- Environment of one `MICS6814Sensor.read_measurement` call: the baseline
reading `initialize()` would capture if invoked (`none` when initialisation
fails), the outcome of the `try` body, and the wall-clock timestamp. -/
structure MICSEnv where
  initReading : Option MICSReading
  event : ReadEvent MICSReading
  timestamp : String

namespace MICS6814Sensor

/-- `MICS6814Sensor.is_valid_reading` (lines 118–140): any channel `None`
or ≤ 0 is invalid; any baseline channel still `None` is invalid. -/
def is_valid_reading (st : MICSState) (readings : MICSReading) : Bool :=
  match readings.oxidising, readings.reducing, readings.nh3 with
  | some o, some r, some n =>
    if o ≤ 0 ∨ r ≤ 0 ∨ n ≤ 0 then false
    else
      match st.baseline.oxidising, st.baseline.reducing, st.baseline.nh3 with
      | some _, some _, some _ => true
      | _, _, _ => false
  | _, _, _ => false

/-- `MICS6814Sensor.calculate_ppm` (lines 142–167): `0.0` when the baseline
is `None` or either value is non-positive; otherwise the channel-specific
ratio formula, floored at zero; unknown channel names yield `0.0`. -/
def calculate_ppm (current : ℚ) (baseline_value : Option ℚ)
    (gas_type : String) : ℚ :=
  match baseline_value with
  | none => 0
  | some b =>
    if current ≤ 0 ∨ b ≤ 0 then 0
    else if gas_type = "oxidising" then max 0 (0.1 * (b / current - 1))
    else if gas_type = "reducing" then max 0 (4.0 * (current / b - 1))
    else if gas_type = "nh3" then max 0 (5.0 * (current / b - 1))
    else 0

/-- `MICS6814Sensor.read_measurement` (lines 194–251): library missing →
`None`; failed initialisation → cached record; an exception in the body is
caught, `initialized` is cleared and the cached record returned; invalid
readings return the cached record without touching the cache; otherwise the
three ppm values are computed, the record built and cached. -/
def read_measurement (st : MICSState) (env : MICSEnv) :
    MICSState × Option MICSRecord :=
  if ¬ st.available then (st, none)
  else
    let stInit : Option MICSState :=
      if st.initialized then some st
      else
        match env.initReading with
        | none => none
        | some r => some { st with initialized := true, baseline := r }
    match stInit with
    | none => (st, st.last_valid_reading)
    | some st1 =>
      match env.event with
      | .raised => ({ st1 with initialized := false }, st1.last_valid_reading)
      | .ok readings =>
        if ¬ is_valid_reading st1 readings then (st1, st1.last_valid_reading)
        else
          let no2_ppm := calculate_ppm (readings.oxidising.getD 0)
            st1.baseline.oxidising "oxidising"
          let co_ppm := calculate_ppm (readings.reducing.getD 0)
            st1.baseline.reducing "reducing"
          let nh3_ppm := calculate_ppm (readings.nh3.getD 0)
            st1.baseline.nh3 "nh3"
          let data : MICSRecord :=
            { sensor := st1.sensor_name
              timestamp := env.timestamp
              raw_oxidising := readings.oxidising.getD 0
              raw_reducing := readings.reducing.getD 0
              raw_nh3 := readings.nh3.getD 0
              ppm_no2 := no2_ppm
              ppm_co := co_ppm
              ppm_nh3 := nh3_ppm }
          ({ st1 with last_valid_reading := some data }, some data)

/-- The per-channel ppm formulas exactly as §4.4 of the specification words
them: oxidizing `0.1 × (baseline/current − 1)`, reducing
`4.0 × (current/baseline − 1)`, ammonia `5.0 × (current/baseline − 1)`,
all floored at zero.  Stated separately from `calculate_ppm` so the code
can be proved to refine the specification. -/
def ppmSpec (current baseline : ℚ) (channel : String) : ℚ :=
  if channel = "oxidising" then max 0 (0.1 * (baseline / current - 1))
  else if channel = "reducing" then max 0 (4.0 * (current / baseline - 1))
  else if channel = "nh3" then max 0 (5.0 * (current / baseline - 1))
  else 0

end MICS6814Sensor

/-! ### Particulate/VOC driver (`src/sen66_sensor.py`, class `SEN66Sensor`) -/

/-- The dictionary built by `SEN66Sensor.read_measurement` (lines 140–151). -/
structure SEN66Record where
  sensor : String
  temperature : ℚ
  humidity : ℚ
  pm1_0 : ℚ
  pm2_5 : ℚ
  pm4_0 : ℚ
  pm10 : ℚ
  voc_index : ℚ
  nox_index : ℚ
  co2 : ℚ
deriving DecidableEq

namespace SEN66Sensor

/-- `SEN66Sensor.is_valid_reading` (lines 95–122): `None` is invalid; any
negative particulate/VOC/NOx/CO2 value is rejected, as are temperature
outside [-40, 85] and humidity outside [0, 100]. -/
def is_valid_reading (data : Option SEN66Record) : Bool :=
  match data with
  | none => false
  | some d =>
    if d.pm1_0 < 0 ∨ d.pm2_5 < 0 ∨ d.pm4_0 < 0 ∨ d.pm10 < 0 ∨
        d.voc_index < 0 ∨ d.nox_index < 0 ∨ d.co2 < 0 then false
    else if d.temperature < -40 ∨ 85 < d.temperature then false
    else if d.humidity < 0 ∨ 100 < d.humidity then false
    else true

end SEN66Sensor

end SensorModel

namespace SensorModel

/-! ### Concrete instances used by the counterexamples and witnesses -/

/-- A benign cached record for the HCHO specialisation of the ADC driver
(concentration 5 ppm, as in §8 of the specification). -/
def oldMCPRecord : MCPRecord :=
  { sensor := "HCHO", raw_adc := 0, voltage := 0, current_nA := 0,
    concentration := 5, concentration_ppb := 5000 }

/-- An initialised HCHO driver with the construction defaults of
`src/mcp3208_sensor.py` / `src/hcho_nh3_sensors.py` (`vref = 3.282`,
`r_feedback = 22000`, `sensitivity = 35.0`) holding `oldMCPRecord` in its
cache. -/
def stHCHO : MCP3208State :=
  { sensor_name := "HCHO", channel := 0, vref := 3.282, r_feedback := 22000,
    sensitivity := 35, initialized := true,
    last_valid_reading := some oldMCPRecord }

/-- An ADC driver state with an integer reference voltage, used where a
witness needs kernel-decidable arithmetic. -/
def stIntVref : MCP3208State :=
  { sensor_name := "HCHO", channel := 0, vref := 3, r_feedback := 22000,
    sensitivity := 35, initialized := true, last_valid_reading := none }

/-- A benign cached record for the DGS2 driver. -/
def oldDGS2Record : DGS2Record :=
  { sensor := "H2S", gas_ppb := 100, temperature := 20,
    relative_humidity := 50, adc_g := 1, adc_t := 2, adc_h := 3,
    gas_ppm := 100 / 1000 }

/-- An initialised DGS2 driver holding `oldDGS2Record` in its cache. -/
def stDGS2 : DGS2State :=
  { sensor_name := "H2S", initialized := true,
    last_valid_reading := some oldDGS2Record }

/-- A benign cached record for the MICS6814 driver. -/
def oldMICSRecord : MICSRecord :=
  { sensor := "MICS6814", timestamp := "t0", raw_oxidising := 100,
    raw_reducing := 200, raw_nh3 := 150, ppm_no2 := 0, ppm_co := 0,
    ppm_nh3 := 0 }

/-- An initialised MICS6814 driver with calibration baseline
{ox: 100, red: 200, nh3: 150} holding `oldMICSRecord` in its cache. -/
def stMICS : MICSState :=
  { sensor_name := "MICS6814", available := true, initialized := true,
    baseline := { oxidising := some 100, reducing := some 200,
                  nh3 := some 150 },
    last_valid_reading := some oldMICSRecord }

end SensorModel

namespace SensorModel

/-- C1, counterexample: with the HCHO ADC driver at raw count 2000, the
fresh record fails `is_valid_reading`, yet `read_measurement` overwrites
`last_valid_reading` with it — the cache is not gated on validation. -/
theorem C1_counterexample :
    MCP3208Sensor.is_valid_reading stHCHO
      (MCP3208Sensor.read_measurement stHCHO
        { initOk := true, event := .ok 2000 }).2 = false ∧
    (MCP3208Sensor.read_measurement stHCHO
      { initOk := true, event := .ok 2000 }).1.last_valid_reading =
      (MCP3208Sensor.read_measurement stHCHO
        { initOk := true, event := .ok 2000 }).2 ∧
    (MCP3208Sensor.read_measurement stHCHO
      { initOk := true, event := .ok 2000 }).2 ≠
      stHCHO.last_valid_reading := by
  refine ⟨?_, rfl, ?_⟩
  · norm_num [MCP3208Sensor.read_measurement, MCP3208Sensor.readBody,
      MCP3208Sensor.is_valid_reading, MCP3208Sensor.freshRecord,
      MCP3208Sensor.adc_to_voltage, MCP3208Sensor.calculate_iout,
      MCP3208Sensor.calculate_concentration, stHCHO]
  · norm_num [MCP3208Sensor.read_measurement, MCP3208Sensor.readBody,
      MCP3208Sensor.freshRecord, MCP3208Sensor.adc_to_voltage,
      MCP3208Sensor.calculate_iout, MCP3208Sensor.calculate_concentration,
      stHCHO, oldMCPRecord, MCPRecord.mk.injEq]

/-- C1, amended: in the ASCII-serial and ADC-analog drivers the cache is
overwritten whenever the read body produces a fresh record — a successful
ADC transaction, or a successful parse — regardless of `is_valid_reading`;
it is left unchanged exactly when no fresh record is produced (an
exception, or a failed parse). -/
theorem C1_theorem :
    (∀ (st : MCP3208State) (env : MCPEnv) (raw : ℕ),
      st.initialized = true → env.event = .ok raw →
      (MCP3208Sensor.read_measurement st env).1.last_valid_reading =
        some (MCP3208Sensor.freshRecord st raw)) ∧
    (∀ (st : DGS2State) (env : DGS2Env) (line : String) (d : DGS2Record),
      st.initialized = true → env.event = .ok line →
      DGS2Sensor.parse_measurement st.sensor_name line = some d →
      (DGS2Sensor.read_measurement st env).1.last_valid_reading =
        some (DGS2Sensor.sanitize d)) ∧
    (∀ (st : DGS2State) (env : DGS2Env) (line : String),
      st.initialized = true → env.event = .ok line →
      DGS2Sensor.parse_measurement st.sensor_name line = none →
      (DGS2Sensor.read_measurement st env).1 = st) ∧
    (∀ (st : MCP3208State) (env : MCPEnv), st.initialized = true →
      env.event = .raised → (MCP3208Sensor.read_measurement st env).1 = st) ∧
    (∀ (st : DGS2State) (env : DGS2Env), st.initialized = true →
      env.event = .raised → (DGS2Sensor.read_measurement st env).1 = st) := by
  refine ⟨?_, ?_, ?_, ?_, ?_⟩
  · intro st env raw hinit hev
    simp [MCP3208Sensor.read_measurement, MCP3208Sensor.readBody, hinit, hev]
  · intro st env line d hinit hev hparse
    simp [DGS2Sensor.read_measurement, DGS2Sensor.readBody, hinit, hev, hparse]
  · intro st env line hinit hev hparse
    simp [DGS2Sensor.read_measurement, DGS2Sensor.readBody, hinit, hev, hparse]
  · intro st env hinit hev
    simp [MCP3208Sensor.read_measurement, MCP3208Sensor.readBody, hinit, hev]
  · intro st env hinit hev
    simp [DGS2Sensor.read_measurement, DGS2Sensor.readBody, hinit, hev]

/-- C1, witness: the amended theorem applied to the concrete HCHO driver
state at raw count 2000. -/
theorem C1_witness :
    stHCHO.initialized = true ∧
    (MCP3208Sensor.read_measurement stHCHO
      { initOk := true, event := .ok 2000 }).1.last_valid_reading =
      some (MCP3208Sensor.freshRecord stHCHO 2000) :=
  ⟨rfl, C1_theorem.1 stHCHO { initOk := true, event := .ok 2000 } 2000 rfl rfl⟩

end SensorModel

namespace SensorModel

/-- C2, counterexample: in the concrete scenario (Vref 3.282, R_feedback
22000, sensitivity 35.0, raw 2000) the fresh record indeed fails
validation, but `read_measurement` returns the fresh record itself, not
the last-known-good record. -/
theorem C2_counterexample :
    MCP3208Sensor.is_valid_reading stHCHO
      (MCP3208Sensor.read_measurement stHCHO
        { initOk := true, event := .ok 2000 }).2 = false ∧
    ¬ (MCP3208Sensor.read_measurement stHCHO
        { initOk := true, event := .ok 2000 }).2 =
      stHCHO.last_valid_reading := by
  constructor
  · norm_num [MCP3208Sensor.read_measurement, MCP3208Sensor.readBody,
      MCP3208Sensor.is_valid_reading, MCP3208Sensor.freshRecord,
      MCP3208Sensor.adc_to_voltage, MCP3208Sensor.calculate_iout,
      MCP3208Sensor.calculate_concentration, stHCHO]
  · norm_num [MCP3208Sensor.read_measurement, MCP3208Sensor.readBody,
      MCP3208Sensor.freshRecord, MCP3208Sensor.adc_to_voltage,
      MCP3208Sensor.calculate_iout, MCP3208Sensor.calculate_concentration,
      stHCHO, oldMCPRecord, MCPRecord.mk.injEq]

/-- C2, amended: the conversion chain is
`voltage = (raw/4095) × Vref`, `current_nA = ((Vref − voltage)/R_feedback) × 1e9`,
`concentration_ppm = current_nA / sensitivity` (0 when sensitivity ≤ 0),
`concentration_ppb = concentration_ppm × 1000`; in the concrete scenario
the chain yields voltage ≈ 1.6029 V, current ≈ 76321–76322 nA,
concentration ≈ 2180.6 ppm, `is_valid_reading` rejects the record, but
`read_measurement` returns and caches the fresh record rather than the
last-known-good one. -/
theorem C2_theorem :
    (∀ (st : MCP3208State) (r : ℚ),
      MCP3208Sensor.adc_to_voltage st r = r / 4095 * st.vref) ∧
    (∀ (st : MCP3208State) (v : ℚ),
      MCP3208Sensor.calculate_iout st v =
        (st.vref - v) / st.r_feedback * 1000000000) ∧
    (∀ (st : MCP3208State) (i : ℚ), 0 < st.sensitivity →
      MCP3208Sensor.calculate_concentration st i = i / st.sensitivity) ∧
    (∀ (st : MCP3208State) (i : ℚ), st.sensitivity ≤ 0 →
      MCP3208Sensor.calculate_concentration st i = 0) ∧
    (1.6029 < (MCP3208Sensor.freshRecord stHCHO 2000).voltage ∧
      (MCP3208Sensor.freshRecord stHCHO 2000).voltage < 1.603) ∧
    (76321 < (MCP3208Sensor.freshRecord stHCHO 2000).current_nA ∧
      (MCP3208Sensor.freshRecord stHCHO 2000).current_nA < 76322) ∧
    (2180.6 < (MCP3208Sensor.freshRecord stHCHO 2000).concentration ∧
      (MCP3208Sensor.freshRecord stHCHO 2000).concentration < 2180.7) ∧
    (MCP3208Sensor.freshRecord stHCHO 2000).concentration_ppb =
      (MCP3208Sensor.freshRecord stHCHO 2000).concentration * 1000 ∧
    MCP3208Sensor.is_valid_reading stHCHO
      (some (MCP3208Sensor.freshRecord stHCHO 2000)) = false ∧
    (MCP3208Sensor.read_measurement stHCHO
      { initOk := true, event := .ok 2000 }).2 =
      some (MCP3208Sensor.freshRecord stHCHO 2000) := by
  refine ⟨fun st r => rfl, fun st v => rfl, ?_, ?_, ?_, ?_, ?_, rfl, ?_, ?_⟩
  · intro st i h
    simp [MCP3208Sensor.calculate_concentration, not_le.mpr h]
  · intro st i h
    simp [MCP3208Sensor.calculate_concentration, h]
  · norm_num [MCP3208Sensor.freshRecord, MCP3208Sensor.adc_to_voltage,
      MCP3208Sensor.calculate_iout, MCP3208Sensor.calculate_concentration,
      stHCHO]
  · norm_num [MCP3208Sensor.freshRecord, MCP3208Sensor.adc_to_voltage,
      MCP3208Sensor.calculate_iout, MCP3208Sensor.calculate_concentration,
      stHCHO]
  · norm_num [MCP3208Sensor.freshRecord, MCP3208Sensor.adc_to_voltage,
      MCP3208Sensor.calculate_iout, MCP3208Sensor.calculate_concentration,
      stHCHO]
  · norm_num [MCP3208Sensor.is_valid_reading, MCP3208Sensor.freshRecord,
      MCP3208Sensor.adc_to_voltage, MCP3208Sensor.calculate_iout,
      MCP3208Sensor.calculate_concentration, stHCHO]
  · simp [MCP3208Sensor.read_measurement, MCP3208Sensor.readBody, stHCHO]

/-- C2, witness: the guarded-division conjuncts of the amended theorem
applied at the concrete HCHO driver state. -/
theorem C2_witness :
    0 < stHCHO.sensitivity ∧
    MCP3208Sensor.calculate_concentration stHCHO 70 =
      70 / stHCHO.sensitivity ∧
    MCP3208Sensor.calculate_concentration
      { sensor_name := "X", channel := 0, vref := 3, r_feedback := 22000,
        sensitivity := 0, initialized := false, last_valid_reading := none }
      5 = 0 :=
  ⟨by norm_num [stHCHO], C2_theorem.2.2.1 stHCHO 70 (by norm_num [stHCHO]),
    C2_theorem.2.2.2.1
      { sensor_name := "X", channel := 0, vref := 3, r_feedback := 22000,
        sensitivity := 0, initialized := false, last_valid_reading := none }
      5 (by norm_num)⟩

end SensorModel

namespace SensorModel

/-- C3, counterexample: when the `try` body of the DGS2 driver's
`read_measurement` raises, the exception is caught and the cached record
returned, but the driver state is left unchanged — `initialized` stays
`true`, so the state is not downgraded to Faulted. -/
theorem C3_counterexample :
    (DGS2Sensor.read_measurement stDGS2
      { initOk := true, event := .raised }).1.initialized = true ∧
    (DGS2Sensor.read_measurement stDGS2
      { initOk := true, event := .raised }).2 =
      stDGS2.last_valid_reading := by
  constructor
  · simp [DGS2Sensor.read_measurement, DGS2Sensor.readBody, stDGS2]
  · simp [DGS2Sensor.read_measurement, DGS2Sensor.readBody, stDGS2]

/-- C3, amended: an exception in the read body is always caught and the
last-known-good record returned (never propagated); the resistive-gas
driver additionally clears its `initialized` flag, while the ASCII-serial
and ADC-analog drivers leave the driver state unchanged; a parse failure
in the ASCII-serial driver returns `none` rather than the cache. -/
theorem C3_theorem :
    (∀ (st : DGS2State) (env : DGS2Env), st.initialized = true →
      env.event = .raised →
      DGS2Sensor.read_measurement st env = (st, st.last_valid_reading)) ∧
    (∀ (st : MCP3208State) (env : MCPEnv), st.initialized = true →
      env.event = .raised →
      MCP3208Sensor.read_measurement st env = (st, st.last_valid_reading)) ∧
    (∀ (st : MICSState) (env : MICSEnv), st.available = true →
      st.initialized = true → env.event = .raised →
      MICS6814Sensor.read_measurement st env =
        ({ st with initialized := false }, st.last_valid_reading)) ∧
    (∀ (st : DGS2State) (env : DGS2Env) (line : String),
      st.initialized = true → env.event = .ok line →
      DGS2Sensor.parse_measurement st.sensor_name line = none →
      DGS2Sensor.read_measurement st env = (st, none)) := by
  refine ⟨?_, ?_, ?_, ?_⟩
  · intro st env hinit hev
    simp [DGS2Sensor.read_measurement, DGS2Sensor.readBody, hinit, hev]
  · intro st env hinit hev
    simp [MCP3208Sensor.read_measurement, MCP3208Sensor.readBody, hinit, hev]
  · intro st env hav hinit hev
    simp [MICS6814Sensor.read_measurement, hav, hinit, hev]
  · intro st env line hinit hev hparse
    simp [DGS2Sensor.read_measurement, DGS2Sensor.readBody, hinit, hev, hparse]

/-- C3, witness: the amended theorem applied to the concrete DGS2 and
MICS6814 driver states with a raised transport exception. -/
theorem C3_witness :
    stDGS2.initialized = true ∧
    DGS2Sensor.read_measurement stDGS2 { initOk := true, event := .raised } =
      (stDGS2, stDGS2.last_valid_reading) ∧
    MICS6814Sensor.read_measurement stMICS
      { initReading := none, event := .raised, timestamp := "t1" } =
      ({ stMICS with initialized := false }, stMICS.last_valid_reading) :=
  ⟨rfl,
    C3_theorem.1 stDGS2 { initOk := true, event := .raised } rfl rfl,
    C3_theorem.2.2.1 stMICS
      { initReading := none, event := .raised, timestamp := "t1" }
      rfl rfl rfl⟩

/-- C4, counterexample: the ADC driver's constructor accepts a non-positive
sensitivity — with channel 0 and sensitivity −1 construction succeeds, so
failing fast is not triggered by every invalid configuration parameter the
claim lists. -/
theorem C4_counterexample :
    MCP3208Sensor.initOk (MCP3208Sensor.init 0 3 22000 (-1) "HCHO") = true ∧
    (-1 : ℚ) ≤ 0 := by
  constructor
  · rfl
  · norm_num

/-- C4, amended: construction of the ADC-analog driver fails fast exactly
when the channel index is outside 0–7; a non-positive sensitivity is
accepted at construction and instead handled inside
`calculate_concentration`, which returns 0 rather than dividing. -/
theorem C4_theorem :
    (∀ (ch : ℤ) (vref rf sens : ℚ) (name : String),
      MCP3208Sensor.initOk (MCP3208Sensor.init ch vref rf sens name) = false ↔
        (ch < 0 ∨ 7 < ch)) ∧
    (∀ (st : MCP3208State) (i : ℚ), st.sensitivity ≤ 0 →
      MCP3208Sensor.calculate_concentration st i = 0) := by
  constructor
  · intro ch vref rf sens name
    by_cases h : ch < 0 ∨ 7 < ch
    · simp [MCP3208Sensor.init, MCP3208Sensor.initOk, h]
    · simp [MCP3208Sensor.init, MCP3208Sensor.initOk, h]
  · intro st i h
    simp [MCP3208Sensor.calculate_concentration, h]

/-- C4, witness: the amended theorem applied at channel 9 (rejected) and at
a state with zero sensitivity (concentration computation returns 0). -/
theorem C4_witness :
    (MCP3208Sensor.initOk (MCP3208Sensor.init 9 3 22000 35 "HCHO") = false ↔
      ((9 : ℤ) < 0 ∨ (7 : ℤ) < 9)) ∧
    MCP3208Sensor.calculate_concentration
      { sensor_name := "X", channel := 0, vref := 3, r_feedback := 22000,
        sensitivity := 0, initialized := false, last_valid_reading := none }
      7 = 0 :=
  ⟨C4_theorem.1 9 3 22000 35 "HCHO",
    C4_theorem.2
      { sensor_name := "X", channel := 0, vref := 3, r_feedback := 22000,
        sensitivity := 0, initialized := false, last_valid_reading := none }
      7 (by norm_num)⟩

end SensorModel

namespace SensorModel

/-- C5: for positive current and baseline, `calculate_ppm` computes exactly
the channel formulas of the specification (`ppmSpec`), results floored at
zero; at the concrete inputs of §8, `ppm` is `1/90` (≈ 0.0111) for the
oxidising channel, `0.4` for the reducing channel and `0` for the ammonia
channel. -/
theorem C5_theorem :
    (∀ (current b : ℚ) (g : String), 0 < current → 0 < b →
      MICS6814Sensor.calculate_ppm current (some b) g =
        MICS6814Sensor.ppmSpec current b g) ∧
    MICS6814Sensor.calculate_ppm 90 (some 100) "oxidising" = 1 / 90 ∧
    (0.0111 < (1 : ℚ) / 90 ∧ (1 : ℚ) / 90 < 0.0112) ∧
    MICS6814Sensor.calculate_ppm 220 (some 200) "reducing" = 0.4 ∧
    MICS6814Sensor.calculate_ppm 150 (some 150) "nh3" = 0 := by
  refine ⟨?_, ?_, by norm_num, ?_, ?_⟩
  · intro current b g hc hb
    simp [MICS6814Sensor.calculate_ppm, MICS6814Sensor.ppmSpec,
      not_le.mpr hc, not_le.mpr hb]
  · norm_num [MICS6814Sensor.calculate_ppm]
  · norm_num [MICS6814Sensor.calculate_ppm,
      show ("reducing" : String) ≠ "oxidising" from by decide]
  · norm_num [MICS6814Sensor.calculate_ppm,
      show ("nh3" : String) ≠ "oxidising" from by decide,
      show ("nh3" : String) ≠ "reducing" from by decide]

/-- C5, witness: the refinement conjunct applied at the concrete oxidising
inputs of the specification scenario. -/
theorem C5_witness :
    (0 : ℚ) < 90 ∧ (0 : ℚ) < 100 ∧
    MICS6814Sensor.calculate_ppm 90 (some 100) "oxidising" =
      MICS6814Sensor.ppmSpec 90 100 "oxidising" :=
  ⟨by norm_num, by norm_num,
    C5_theorem.1 90 100 "oxidising" (by norm_num) (by norm_num)⟩

/-- C10: `calculate_ppm` is total and returns `0.0` on every degenerate
input — a `None` baseline, a non-positive current, a non-positive
baseline, or an unrecognised gas-type string — without reaching any of the
ratio divisions. -/
theorem C10_theorem :
    (∀ (c : ℚ) (g : String), MICS6814Sensor.calculate_ppm c none g = 0) ∧
    (∀ (c b : ℚ) (g : String), c ≤ 0 →
      MICS6814Sensor.calculate_ppm c (some b) g = 0) ∧
    (∀ (c b : ℚ) (g : String), b ≤ 0 →
      MICS6814Sensor.calculate_ppm c (some b) g = 0) ∧
    (∀ (c b : ℚ) (g : String), g ≠ "oxidising" → g ≠ "reducing" →
      g ≠ "nh3" → MICS6814Sensor.calculate_ppm c (some b) g = 0) := by
  refine ⟨fun c g => rfl, ?_, ?_, ?_⟩
  · intro c b g h
    simp [MICS6814Sensor.calculate_ppm, h]
  · intro c b g h
    simp [MICS6814Sensor.calculate_ppm, h]
  · intro c b g h1 h2 h3
    by_cases hc : c ≤ 0 ∨ b ≤ 0
    · simp [MICS6814Sensor.calculate_ppm, hc]
    · simp [MICS6814Sensor.calculate_ppm, hc, h1, h2, h3]

/-- C10, witness: the degenerate cases evaluated at concrete inputs
(current −1, baseline −2, gas type `"foo"`). -/
theorem C10_witness :
    MICS6814Sensor.calculate_ppm 5 none "oxidising" = 0 ∧
    ((-1 : ℚ) ≤ 0 ∧ MICS6814Sensor.calculate_ppm (-1) (some 100) "nh3" = 0) ∧
    ((-2 : ℚ) ≤ 0 ∧ MICS6814Sensor.calculate_ppm 5 (some (-2)) "nh3" = 0) ∧
    MICS6814Sensor.calculate_ppm 5 (some 100) "foo" = 0 :=
  ⟨C10_theorem.1 5 "oxidising",
    ⟨by norm_num, C10_theorem.2.1 (-1) 100 "nh3" (by norm_num)⟩,
    ⟨by norm_num, C10_theorem.2.2.1 5 (-2) "nh3" (by norm_num)⟩,
    C10_theorem.2.2.2 5 100 "foo" (by decide) (by decide) (by decide)⟩

end SensorModel

namespace SensorModel

/-- C7: both range validators accept a record exactly when every
concentration/particulate field is non-negative (0 at the boundary
included), temperature lies in [-40, 85] and humidity in [0, 100] — all
comparisons strict in the code, so the boundary values themselves are
accepted and any negative such field is rejected. -/
theorem C7_theorem :
    (∀ r : DGS2Record, DGS2Sensor.is_valid_reading (some r) = true ↔
      (0 ≤ r.gas_ppb ∧ 0 ≤ r.gas_ppm ∧ -40 ≤ r.temperature ∧
        r.temperature ≤ 85 ∧ 0 ≤ r.relative_humidity ∧
        r.relative_humidity ≤ 100)) ∧
    (∀ r : SEN66Record, SEN66Sensor.is_valid_reading (some r) = true ↔
      (0 ≤ r.pm1_0 ∧ 0 ≤ r.pm2_5 ∧ 0 ≤ r.pm4_0 ∧ 0 ≤ r.pm10 ∧
        0 ≤ r.voc_index ∧ 0 ≤ r.nox_index ∧ 0 ≤ r.co2 ∧
        -40 ≤ r.temperature ∧ r.temperature ≤ 85 ∧
        0 ≤ r.humidity ∧ r.humidity ≤ 100)) := by
  constructor
  · intro r
    simp only [DGS2Sensor.is_valid_reading]
    split_ifs with h1 h2 h3
    · simp only [Bool.false_eq_true, false_iff]
      rintro ⟨hb, hm, ht1, ht2, hh1, hh2⟩
      rcases h1 with h | h <;> linarith
    · simp only [Bool.false_eq_true, false_iff]
      rintro ⟨hb, hm, ht1, ht2, hh1, hh2⟩
      rcases h2 with h | h <;> linarith
    · simp only [Bool.false_eq_true, false_iff]
      rintro ⟨hb, hm, ht1, ht2, hh1, hh2⟩
      rcases h3 with h | h <;> linarith
    · push_neg at h1 h2 h3
      simp only [true_iff]
      exact ⟨h1.1, h1.2, by linarith [h2.1], h2.2, h3.1, h3.2⟩
  · intro r
    simp only [SEN66Sensor.is_valid_reading]
    split_ifs with h1 h2 h3
    · simp only [Bool.false_eq_true, false_iff]
      rintro ⟨p1, p2, p3, p4, pv, pn, pc, ht1, ht2, hh1, hh2⟩
      rcases h1 with h | h | h | h | h | h | h <;> linarith
    · simp only [Bool.false_eq_true, false_iff]
      rintro ⟨p1, p2, p3, p4, pv, pn, pc, ht1, ht2, hh1, hh2⟩
      rcases h2 with h | h <;> linarith
    · simp only [Bool.false_eq_true, false_iff]
      rintro ⟨p1, p2, p3, p4, pv, pn, pc, ht1, ht2, hh1, hh2⟩
      rcases h3 with h | h <;> linarith
    · push_neg at h1 h2 h3
      simp only [true_iff]
      obtain ⟨q1, q2, q3, q4, q5, q6, q7⟩ := h1
      exact ⟨q1, q2, q3, q4, q5, q6, q7, by linarith [h2.1], h2.2,
        h3.1, h3.2⟩

/-- C7, witness: a DGS2 record sitting exactly on every boundary (gas 0,
temperature −40, humidity 100) is accepted, via the characterisation. -/
theorem C7_witness :
    DGS2Sensor.is_valid_reading (some
      { sensor := "H2S", gas_ppb := 0, temperature := -40,
        relative_humidity := 100, adc_g := 0, adc_t := 0, adc_h := 0,
        gas_ppm := 0 }) = true :=
  (C7_theorem.1
    { sensor := "H2S", gas_ppb := 0, temperature := -40,
      relative_humidity := 100, adc_g := 0, adc_t := 0, adc_h := 0,
      gas_ppm := 0 }).mpr (by norm_num)

/-- C8: the post-parse sanitisation of the ASCII-serial driver replaces
every negative numeric field with zero except temperature, which is left
untouched (its key contains `"temp"`); non-negative fields are returned
unchanged. -/
theorem C8_theorem :
    ∀ r : DGS2Record, DGS2Sensor.sanitize r =
      { sensor := r.sensor
        gas_ppb := if r.gas_ppb < 0 then 0 else r.gas_ppb
        temperature := r.temperature
        relative_humidity :=
          if r.relative_humidity < 0 then 0 else r.relative_humidity
        adc_g := if r.adc_g < 0 then 0 else r.adc_g
        adc_t := if r.adc_t < 0 then 0 else r.adc_t
        adc_h := if r.adc_h < 0 then 0 else r.adc_h
        gas_ppm := if r.gas_ppm < 0 then 0 else r.gas_ppm } :=
  fun r => rfl

/-- C9: `adc_to_voltage` is monotonically non-decreasing on raw counts in
[0, 4095] (for the non-negative reference voltage), equals 0 at count 0 and
equals `Vref` at count 4095. -/
theorem C9_theorem :
    ∀ st : MCP3208State, 0 ≤ st.vref →
      (∀ r s : ℕ, r ≤ s → s ≤ 4095 →
        MCP3208Sensor.adc_to_voltage st (r : ℚ) ≤
          MCP3208Sensor.adc_to_voltage st (s : ℚ)) ∧
      MCP3208Sensor.adc_to_voltage st 0 = 0 ∧
      MCP3208Sensor.adc_to_voltage st 4095 = st.vref := by
  intro st hv
  refine ⟨?_, by norm_num [MCP3208Sensor.adc_to_voltage],
    by norm_num [MCP3208Sensor.adc_to_voltage]⟩
  intro r s hrs _
  unfold MCP3208Sensor.adc_to_voltage
  have hc : (r : ℚ) ≤ (s : ℚ) := by exact_mod_cast hrs
  gcongr

/-- C9, witness: the theorem applied to a driver with reference voltage 3,
at counts 1 ≤ 2 ≤ 4095 and at the two endpoints. -/
theorem C9_witness :
    0 ≤ stIntVref.vref ∧
    MCP3208Sensor.adc_to_voltage stIntVref ((1 : ℕ) : ℚ) ≤
      MCP3208Sensor.adc_to_voltage stIntVref ((2 : ℕ) : ℚ) ∧
    MCP3208Sensor.adc_to_voltage stIntVref 0 = 0 ∧
    MCP3208Sensor.adc_to_voltage stIntVref 4095 = stIntVref.vref :=
  ⟨by norm_num [stIntVref],
    (C9_theorem stIntVref (by norm_num [stIntVref])).1 1 2 (by norm_num)
      (by norm_num),
    (C9_theorem stIntVref (by norm_num [stIntVref])).2.1,
    (C9_theorem stIntVref (by norm_num [stIntVref])).2.2⟩

end SensorModel

namespace SensorModel

/-- C6: `parse_measurement` splits the line on commas; with at least 7
fields whose positions 1–6 carry numeric content it returns the record
with `gas_ppb` the integer at field 1, temperature = field 2 / 100,
relative humidity = field 3 / 100, integer ADC counts at fields 4–6, and
`gas_ppm = gas_ppb / 1000` exactly; it returns `none` exactly when the
line has fewer than 7 fields or a numeric conversion at one of those
positions fails. -/
theorem C6_theorem :
    ∀ name line : String,
      (∀ (ppb g a1 a2 : ℤ) (t h : ℚ),
        (pySplitOn ',' line.toList).length ≥ 7 →
        pyInt? ((pySplitOn ',' line.toList).getD 1 []) = some ppb →
        pyFloat? ((pySplitOn ',' line.toList).getD 2 []) = some t →
        pyFloat? ((pySplitOn ',' line.toList).getD 3 []) = some h →
        pyInt? ((pySplitOn ',' line.toList).getD 4 []) = some g →
        pyInt? ((pySplitOn ',' line.toList).getD 5 []) = some a1 →
        pyInt? ((pySplitOn ',' line.toList).getD 6 []) = some a2 →
        DGS2Sensor.parse_measurement name line =
          some { sensor := name, gas_ppb := (ppb : ℚ),
                 temperature := t / 100, relative_humidity := h / 100,
                 adc_g := (g : ℚ), adc_t := (a1 : ℚ), adc_h := (a2 : ℚ),
                 gas_ppm := (ppb : ℚ) / 1000 }) ∧
      (DGS2Sensor.parse_measurement name line = none ↔
        ((pySplitOn ',' line.toList).length < 7 ∨
          pyInt? ((pySplitOn ',' line.toList).getD 1 []) = none ∨
          pyFloat? ((pySplitOn ',' line.toList).getD 2 []) = none ∨
          pyFloat? ((pySplitOn ',' line.toList).getD 3 []) = none ∨
          pyInt? ((pySplitOn ',' line.toList).getD 4 []) = none ∨
          pyInt? ((pySplitOn ',' line.toList).getD 5 []) = none ∨
          pyInt? ((pySplitOn ',' line.toList).getD 6 []) = none)) := by
  intro name line
  constructor
  · intro ppb g a1 a2 t h hlen h1 h2 h3 h4 h5 h6
    simp only [DGS2Sensor.parse_measurement]
    rw [if_pos hlen, h1, h2, h3, h4, h5, h6]
  · simp only [DGS2Sensor.parse_measurement]
    by_cases hlen : (pySplitOn ',' line.toList).length ≥ 7
    · rw [if_pos hlen]
      rcases e1 : pyInt? ((pySplitOn ',' line.toList).getD 1 []) with _ | v1 <;>
        rcases e2 : pyFloat? ((pySplitOn ',' line.toList).getD 2 []) with _ | v2 <;>
        rcases e3 : pyFloat? ((pySplitOn ',' line.toList).getD 3 []) with _ | v3 <;>
        rcases e4 : pyInt? ((pySplitOn ',' line.toList).getD 4 []) with _ | v4 <;>
        rcases e5 : pyInt? ((pySplitOn ',' line.toList).getD 5 []) with _ | v5 <;>
        rcases e6 : pyInt? ((pySplitOn ',' line.toList).getD 6 []) with _ | v6 <;>
        simp [e1, e2, e3, e4, e5, e6, Nat.not_lt.mpr hlen] <;> exact hlen
    · rw [if_neg hlen]
      exact iff_of_true rfl (Or.inl (by omega))

/-- C6, witness: the parse theorem applied to the concrete well-formed
line `"x,1234,2500,4550,10,20,30"`. -/
theorem C6_witness :
    (pySplitOn ',' "x,1234,2500,4550,10,20,30".toList).length ≥ 7 ∧
    pyInt? ((pySplitOn ',' "x,1234,2500,4550,10,20,30".toList).getD 1 []) =
      some 1234 ∧
    DGS2Sensor.parse_measurement "H2S" "x,1234,2500,4550,10,20,30" =
      some { sensor := "H2S", gas_ppb := ((1234 : ℤ) : ℚ),
             temperature := ((2500 : ℚ)) / 100,
             relative_humidity := ((4550 : ℚ)) / 100,
             adc_g := ((10 : ℤ) : ℚ), adc_t := ((20 : ℤ) : ℚ),
             adc_h := ((30 : ℤ) : ℚ),
             gas_ppm := ((1234 : ℤ) : ℚ) / 1000 } :=
  ⟨by decide, rfl,
    (C6_theorem (id "H2S") (id "x,1234,2500,4550,10,20,30")).1
      1234 10 20 30 2500 4550 (by decide) rfl rfl rfl rfl rfl rfl⟩

end SensorModel
